import Mathlib

/-!
Verification of the behavioral claims about the `python-misc` repository
(`misc/classtypes.py` and `misc/decorators.py`), via a shallow embedding of
the relevant Python data model in Lean.

Conventions of the embedding:
* Python dictionaries are modelled as association lists with the usual
  extensional dictionary semantics: `aupdate` removes any previous binding
  of the key before adding the new one, so lookup behaves exactly like a
  Python dict even though entry order differs.
* Object identity is modelled by a `Nat` identifier drawn from a counter
  carried in the state; each run of a Python constructor body allocates a
  fresh identifier.
* Python exceptions are values of `PyError`, and fallible operations return
  `Except PyError _`.
-/

section Assoc

variable {κ β : Type} [DecidableEq κ]

/-- Dictionary lookup on an association list: the first binding wins. -/
def alookup : List (κ × β) → κ → Option β
  | [], _ => none
  | (k, v) :: t, key => if k = key then some v else alookup t key

/-- Remove every binding of `key` (a Python dict has at most one). -/
def aerase : List (κ × β) → κ → List (κ × β)
  | [], _ => []
  | (k, v) :: t, key => if k = key then aerase t key else (k, v) :: aerase t key

/-- Dictionary write `d[key] = v`: replaces any previous binding of `key`. -/
def aupdate (l : List (κ × β)) (key : κ) (v : β) : List (κ × β) :=
  (key, v) :: aerase l key

/-- Number of bindings carried for `key` (0 or 1 in dictionary-shaped lists). -/
def acount : List (κ × β) → κ → Nat
  | [], _ => 0
  | (k, _) :: t, key => (if k = key then 1 else 0) + acount t key

theorem alookup_aupdate_self (l : List (κ × β)) (k : κ) (v : β) :
    alookup (aupdate l k v) k = some v := by
  simp [aupdate, alookup]

theorem alookup_aerase_self (l : List (κ × β)) (k : κ) :
    alookup (aerase l k) k = none := by
  induction l with
  | nil => simp [aerase, alookup]
  | cons p t ih =>
    obtain ⟨k0, v0⟩ := p
    by_cases h : k0 = k
    · simp [aerase, h, ih]
    · simp [aerase, alookup, h, ih]

theorem alookup_aerase_ne (l : List (κ × β)) (k k2 : κ) (h : k ≠ k2) :
    alookup (aerase l k2) k = alookup l k := by
  have h2 : ¬ k2 = k := fun hk => h hk.symm
  induction l with
  | nil => rfl
  | cons p t ih =>
    obtain ⟨k0, v0⟩ := p
    by_cases h0 : k0 = k2
    · subst h0
      simp [aerase, alookup, h2, ih]
    · by_cases h1 : k0 = k
      · subst h1
        simp [aerase, h0, alookup]
      · simp [aerase, h0, alookup, h1, ih]

theorem alookup_aupdate_ne (l : List (κ × β)) (k k2 : κ) (v : β) (h : k ≠ k2) :
    alookup (aupdate l k2 v) k = alookup l k := by
  have h2 : k2 ≠ k := fun hk => h hk.symm
  simp [aupdate, alookup, h2, alookup_aerase_ne l k k2 h]

theorem acount_aerase_self (l : List (κ × β)) (k : κ) :
    acount (aerase l k) k = 0 := by
  induction l with
  | nil => rfl
  | cons p t ih =>
    obtain ⟨k0, v0⟩ := p
    by_cases h : k0 = k
    · simp [aerase, h, ih]
    · simp [aerase, acount, h, ih]

theorem acount_aupdate_self (l : List (κ × β)) (k : κ) (v : β) :
    acount (aupdate l k v) k = 1 := by
  simp [aupdate, acount, acount_aerase_self]

theorem acount_aerase_ne (l : List (κ × β)) (k k2 : κ) (h : k ≠ k2) :
    acount (aerase l k2) k = acount l k := by
  have h2 : ¬ k2 = k := fun hk => h hk.symm
  induction l with
  | nil => rfl
  | cons p t ih =>
    obtain ⟨k0, v0⟩ := p
    by_cases h0 : k0 = k2
    · subst h0
      simp [aerase, acount, h2, ih]
    · simp [aerase, h0, acount, ih]

theorem acount_aupdate_ne (l : List (κ × β)) (k k2 : κ) (v : β) (h : k ≠ k2) :
    acount (aupdate l k2 v) k = acount l k := by
  have h2 : k2 ≠ k := fun hk => h hk.symm
  simp [aupdate, acount, h2, acount_aerase_ne l k k2 h]

theorem aerase_of_alookup_none (l : List (κ × β)) (k : κ)
    (h : alookup l k = none) : aerase l k = l := by
  induction l with
  | nil => rfl
  | cons p t ih =>
    obtain ⟨k0, v0⟩ := p
    by_cases h0 : k0 = k
    · simp [alookup, h0] at h
    · simp [alookup, h0] at h
      simp [aerase, h0, ih h]

theorem alookup_none_of_not_mem_keys (l : List (κ × β)) (k : κ)
    (h : k ∉ l.map Prod.fst) : alookup l k = none := by
  induction l with
  | nil => rfl
  | cons p t ih =>
    obtain ⟨k0, v0⟩ := p
    rw [List.map_cons] at h
    have h0 : ¬ k0 = k := by
      intro hk
      apply h
      rw [← hk]
      exact List.mem_cons_self _ _
    have h1 : k ∉ t.map Prod.fst := fun hm => h (List.mem_cons_of_mem _ hm)
    simp [alookup, h0, ih h1]

end Assoc

/-! ## `Dict.__iadd__` (misc/classtypes.py)

Source:
```
def __iadd__(self, other):
    if not isinstance(other, dict):
        pass
    for key, val in other.items():
        self[key] = val
    return self
```
The `isinstance` check is a no-op (its body is `pass`), so the loop is the
whole behavior. `A += B` therefore writes every entry of `B` into `A`, in
iteration order, and evaluates to the very same object `A`.
-/

/-- A `Dict` instance: an object identity plus its entries. -/
structure PyDictObj where
  objId : Nat
  entries : List (String × Int)
  deriving DecidableEq

/-- The `for key, val in other.items(): self[key] = val` loop. -/
def iaddLoop (acc : List (String × Int)) : List (String × Int) → List (String × Int)
  | [] => acc
  | (k, v) :: t => iaddLoop (aupdate acc k v) t

/-- `Dict.__iadd__`: merge the entries of `other` into `self` and return
the mutated `self` (same object identity). -/
def dict_iadd (a b : PyDictObj) : PyDictObj :=
  { objId := a.objId, entries := iaddLoop a.entries b.entries }

theorem iaddLoop_not_mem (items : List (String × Int)) (k : String) :
    alookup items k = none →
    ∀ acc, alookup (iaddLoop acc items) k = alookup acc k := by
  induction items with
  | nil => intro _ acc; rfl
  | cons p t ih =>
    obtain ⟨k0, v0⟩ := p
    intro h acc
    by_cases h0 : k0 = k
    · simp [alookup, h0] at h
    · have h1 : alookup t k = none := by simpa [alookup, h0] using h
      have hk : k ≠ k0 := fun hk => h0 hk.symm
      show alookup (iaddLoop (aupdate acc k0 v0) t) k = alookup acc k
      rw [ih h1 (aupdate acc k0 v0), alookup_aupdate_ne _ _ _ _ hk]

theorem iaddLoop_lookup_right (items : List (String × Int)) (k : String) (v : Int) :
    (items.map Prod.fst).Nodup → alookup items k = some v →
    ∀ acc, alookup (iaddLoop acc items) k = some v := by
  induction items with
  | nil => intro _ h; simp [alookup] at h
  | cons p t ih =>
    obtain ⟨k0, v0⟩ := p
    intro hnd h acc
    rw [List.map_cons, List.nodup_cons] at hnd
    by_cases h0 : k0 = k
    · subst h0
      have hv : v0 = v := by simpa [alookup] using h
      subst hv
      have hnone : alookup t k0 = none := alookup_none_of_not_mem_keys t k0 hnd.1
      show alookup (iaddLoop (aupdate acc k0 v0) t) k0 = some v0
      rw [iaddLoop_not_mem t k0 hnone (aupdate acc k0 v0)]
      exact alookup_aupdate_self _ _ _
    · have h1 : alookup t k = some v := by simpa [alookup, h0] using h
      show alookup (iaddLoop (aupdate acc k0 v0) t) k = some v
      exact ih hnd.2 h1 _

/-- Claim C9: `A += B` returns the mutated `A` itself; afterwards every key
present in `B` carries the value from `B`, and every key of `A` not present
in `B` keeps its previous value. -/
theorem C9_dict_iadd_merge (a b : PyDictObj)
    (hnd : (b.entries.map Prod.fst).Nodup) :
    (dict_iadd a b).objId = a.objId ∧
    (∀ k v, alookup b.entries k = some v →
      alookup (dict_iadd a b).entries k = some v) ∧
    (∀ k, alookup b.entries k = none →
      alookup (dict_iadd a b).entries k = alookup a.entries k) := by
  refine ⟨rfl, ?_, ?_⟩
  · intro k v h
    exact iaddLoop_lookup_right _ _ _ hnd h _
  · intro k h
    exact iaddLoop_not_mem _ _ h _

/-- Claim C9 witness at concrete dictionaries with a key collision. -/
theorem C9_dict_iadd_merge_witness :
    (dict_iadd ⟨7, [("one", 1), ("two", 2)]⟩ ⟨8, [("two", 20), ("three", 3)]⟩).objId = 7 ∧
    alookup (dict_iadd ⟨7, [("one", 1), ("two", 2)]⟩ ⟨8, [("two", 20), ("three", 3)]⟩).entries "two" = some 20 ∧
    alookup (dict_iadd ⟨7, [("one", 1), ("two", 2)]⟩ ⟨8, [("two", 20), ("three", 3)]⟩).entries "one" = some 1 := by
  have h := C9_dict_iadd_merge ⟨7, [("one", 1), ("two", 2)]⟩ ⟨8, [("two", 20), ("three", 3)]⟩ (by decide)
  exact ⟨h.1, h.2.1 "two" 20 (by decide), h.2.2 "one" (by decide)⟩

/-! ## `immutableobject` (misc/classtypes.py)

Source:
```
class immutableobject:
    __initialized = False

    def __init__(self, fail_quietly=True):
        self._fail_quietly = fail_quietly
        self.__initialized = True

    def __setattr__(self, key, value):
        if not self.__initialized:
            super(immutableobject, self).__setattr__(key, value)
        elif not self._fail_quietly:
            try:
                name = str(self.__class__).split(".")[-1][:-2]
            except:
                name = "immutableobject"
            msg = "{} object does not support item assignment"
            raise TypeError(msg.format(name))
```
(The format-string braces and the quoting of the original literals are
spelled out in the embedding, which builds the message by concatenation.)

Name mangling turns the `__initialized` flag into the instance attribute
`_immutableobject__initialized`; the class-level default makes it read as
`False` until `__init__` stores `True`. Every attribute, including
`_fail_quietly` and the mangled flag, lives in the instance dictionary and
is written through `__setattr__` itself. `__delattr__` is not overridden,
so attribute deletion uses the default object behavior.
-/

/-- A Python attribute value as used by this class: an int or a bool. -/
inductive PyVal
  | int (n : Int)
  | bool (b : Bool)
  deriving DecidableEq

/-- Python errors relevant to this repository. -/
inductive PyError
  | attributeError (msg : String)
  | typeError (msg : String)
  deriving DecidableEq

/-- Python truthiness of a `PyVal` (`not self._fail_quietly`). -/
def pyTruthy : PyVal → Bool
  | .int n => n ≠ 0
  | .bool b => b

/-- An instance dictionary: attribute name to value. -/
abbrev ODict := List (String × PyVal)

/-- The value of the name-mangled `__initialized` flag: the instance
attribute if present, else the class-level default `False`. -/
def initFlag (o : ODict) : Bool :=
  match alookup o "_immutableobject__initialized" with
  | some v => pyTruthy v
  | none => false

/-- Split a character list at every occurrence of `c`
(Python `str.split`). -/
def splitOnChar (c : Char) : List Char → List (List Char)
  | [] => [[]]
  | x :: xs =>
    match splitOnChar c xs with
    | [] => [[x]]
    | g :: gs => if x = c then [] :: g :: gs else (x :: g) :: gs

/-- `str(self.__class__).split(".")[-1][:-2]`: the last dot-separated
group of the class repr, with the final two characters (the closing
quote and angle bracket) removed. -/
def pyClassName (s : String) : String :=
  String.mk (((splitOnChar '.' s.data).getLastD []).take
    (((splitOnChar '.' s.data).getLastD []).length - 2))

/-- The `name` computed in the error path: `clsRepr` is the result of
`str(self.__class__)` when that introspection succeeds, and `none` when it
raises, in which case the bare `except:` supplies the fallback label. -/
def introspectedName (clsRepr : Option String) : String :=
  match clsRepr with
  | some s => pyClassName s
  | none => "immutableobject"

/-- `immutableobject.__setattr__`. Before initialization it stores the
attribute; once initialized it either raises `TypeError` (when
`_fail_quietly` is falsy) or falls off the end of the method, changing
nothing. Reading `self._fail_quietly` is itself an attribute lookup and
raises `AttributeError` if the attribute is absent. -/
def immutableobject_setattr (clsRepr : Option String) (o : ODict)
    (key : String) (value : PyVal) : Except PyError ODict :=
  if initFlag o = false then
    .ok (aupdate o key value)
  else
    match alookup o "_fail_quietly" with
    | none => .error (.attributeError "_fail_quietly")
    | some fq =>
      if pyTruthy fq = false then
        .error (.typeError
          (introspectedName clsRepr ++ " object does not support item assignment"))
      else
        .ok o

/-- Running an attribute assignment while catching any raised error: the
source raises before mutating anything, so the caught case leaves the
object exactly as it was. -/
def setattrCaught (clsRepr : Option String) (o : ODict)
    (key : String) (value : PyVal) : ODict :=
  match immutableobject_setattr clsRepr o key value with
  | .ok o2 => o2
  | .error _ => o

/-- `immutableobject.__init__(fail_quietly)`: store `_fail_quietly`, then
set the mangled initialization flag; both writes go through
`__setattr__`. -/
def immutableobject_init (o : ODict) (failQuietly : Bool) : Except PyError ODict := do
  let o1 ← immutableobject_setattr none o "_fail_quietly" (.bool failQuietly)
  immutableobject_setattr none o1 "_immutableobject__initialized" (.bool true)

/-- Construction of a concrete subtype in the style of the repository
tests (`Foo.__init__` stores `x` and then calls the mixin `__init__`). -/
def foo_construct (x : Int) (failQuietly : Bool) : Except PyError ODict := do
  let o1 ← immutableobject_setattr none [] "x" (.int x)
  immutableobject_init o1 failQuietly

/-- Default `object.__delattr__`, which `immutableobject` does not
override: remove the attribute if present, raise `AttributeError`
otherwise. -/
def pyDelAttr (o : ODict) (key : String) : Except PyError ODict :=
  match alookup o key with
  | some _ => .ok (aerase o key)
  | none => .error (.attributeError key)

/-- The object built by `foo_construct 5 true` (construct with `x = 5`,
quiet mode), written out. -/
def fooInstance : ODict :=
  [("_immutableobject__initialized", PyVal.bool true),
   ("_fail_quietly", PyVal.bool true),
   ("x", PyVal.int 5)]

theorem foo_construct_eval : foo_construct 5 true = .ok fooInstance := by
  rfl

/-- Claim C7: for an immutable-mixin instance with `fail_quietly = true`
(the default), every attribute set succeeds before initialization
completes; once initialized, every attribute set is accepted as a silent
no-op, so constructing with `x = 5` and then setting `x` to `12` leaves
`x` stored as `5`. -/
theorem C7_immutable_quiet_freeze :
    (∀ (r : Option String) (o : ODict) (k : String) (v : PyVal),
      initFlag o = false →
      immutableobject_setattr r o k v = .ok (aupdate o k v)) ∧
    (∀ (r : Option String) (o : ODict) (k : String) (v : PyVal),
      initFlag o = true → alookup o "_fail_quietly" = some (.bool true) →
      immutableobject_setattr r o k v = .ok o) ∧
    (∀ o : ODict, foo_construct 5 true = .ok o →
      immutableobject_setattr none o "x" (.int 12) = .ok o ∧
      alookup o "x" = some (.int 5)) := by
  refine ⟨?_, ?_, ?_⟩
  · intro r o k v hpre
    simp [immutableobject_setattr, hpre]
  · intro r o k v hinit hfq
    simp [immutableobject_setattr, hinit, hfq, pyTruthy]
  · intro o h
    rw [foo_construct_eval] at h
    injection h with h2
    subst h2
    exact ⟨rfl, rfl⟩

/-- Claim C7 witness: pre-initialization sets succeed, and the concrete
freeze scenario (`x = 5`, then set `x` to `12`, read back `5`). -/
theorem C7_immutable_quiet_freeze_witness :
    immutableobject_setattr none [] "y" (.int 3) = .ok (aupdate [] "y" (.int 3)) ∧
    immutableobject_setattr none fooInstance "x" (.int 12) = .ok fooInstance ∧
    alookup fooInstance "x" = some (.int 5) := by
  refine ⟨C7_immutable_quiet_freeze.1 none [] "y" (.int 3) (by decide), ?_, ?_⟩
  · exact (C7_immutable_quiet_freeze.2.2 fooInstance foo_construct_eval).1
  · exact (C7_immutable_quiet_freeze.2.2 fooInstance foo_construct_eval).2

/-- Claim C8: with `fail_quietly = false`, a post-construction attribute
set raises `TypeError` whose message names the concrete subtype, computed
from the class repr; when the repr cannot be obtained the generic
`immutableobject` label is used and nothing else is raised; a caught error
leaves the object (hence the attribute value) unchanged. -/
theorem C8_immutable_raise :
    (∀ (s : String) (o : ODict) (k : String) (v : PyVal),
      initFlag o = true → alookup o "_fail_quietly" = some (.bool false) →
      immutableobject_setattr (some s) o k v =
        .error (.typeError (pyClassName s ++ " object does not support item assignment"))) ∧
    (∀ (o : ODict) (k : String) (v : PyVal),
      initFlag o = true → alookup o "_fail_quietly" = some (.bool false) →
      immutableobject_setattr none o k v =
        .error (.typeError "immutableobject object does not support item assignment")) ∧
    (∀ (r : Option String) (o : ODict) (k : String) (v : PyVal),
      initFlag o = true → alookup o "_fail_quietly" = some (.bool false) →
      setattrCaught r o k v = o) := by
  refine ⟨?_, ?_, ?_⟩
  · intro s o k v hinit hfq
    simp [immutableobject_setattr, hinit, hfq, pyTruthy, introspectedName]
  · intro o k v hinit hfq
    simp [immutableobject_setattr, hinit, hfq, pyTruthy, introspectedName]
  · intro r o k v hinit hfq
    simp [setattrCaught, immutableobject_setattr, hinit, hfq, pyTruthy]

/-- The repr `str(Bar)` of a subtype named `Bar`, namely
`<class (quote)tests.classtypes_tests.Bar(quote)>` with ASCII single
quotes (character 39). -/
def barRepr : String :=
  "<class " ++ String.singleton (Char.ofNat 39) ++ "tests.classtypes_tests.Bar"
    ++ String.singleton (Char.ofNat 39) ++ ">"

/-- An initialized instance with `fail_quietly = false` and `x = 5`. -/
def barInstance : ODict :=
  [("_immutableobject__initialized", PyVal.bool true),
   ("_fail_quietly", PyVal.bool false),
   ("x", PyVal.int 5)]

/-- Claim C8 witness: the raised message names the subtype `Bar` as
extracted from its repr, the fallback label is used when introspection
fails, and catching the error leaves the object unchanged. -/
theorem C8_immutable_raise_witness :
    immutableobject_setattr (some barRepr) barInstance "x" (.int 12) =
      .error (.typeError "Bar object does not support item assignment") ∧
    immutableobject_setattr none barInstance "x" (.int 12) =
      .error (.typeError "immutableobject object does not support item assignment") ∧
    setattrCaught (some barRepr) barInstance "x" (.int 12) = barInstance := by
  refine ⟨?_, ?_, ?_⟩
  · rw [C8_immutable_raise.1 barRepr barInstance "x" (.int 12) (by decide) (by decide)]
    have hname : pyClassName barRepr = "Bar" := by decide
    rw [hname]
    rfl
  · exact C8_immutable_raise.2.1 barInstance "x" (.int 12) (by decide) (by decide)
  · exact C8_immutable_raise.2.2 (some barRepr) barInstance "x" (.int 12) (by decide) (by decide)

/-- Claim C10: `immutableobject` overrides only attribute assignment, not
deletion, so deleting an existing attribute of an initialized instance
succeeds through the default behavior and removes the attribute. -/
theorem C10_delete_not_intercepted (o : ODict) (k : String) (v : PyVal)
    (hinit : initFlag o = true) (h : alookup o k = some v) :
    pyDelAttr o k = .ok (aerase o k) ∧ alookup (aerase o k) k = none := by
  exact ⟨by simp [pyDelAttr, h], alookup_aerase_self o k⟩

/-- Claim C10 witness: deleting `x` from a frozen instance succeeds and
removes it. -/
theorem C10_delete_not_intercepted_witness :
    pyDelAttr barInstance "x" = .ok (aerase barInstance "x") ∧
    alookup (aerase barInstance "x") "x" = none := by
  exact C10_delete_not_intercepted barInstance "x" (.int 5) (by decide) (by decide)

/-! ## `_Singleton`, `Singleton`, `ThreadedSingleton` (misc/classtypes.py)

Source of the metaclass:
```
class _Singleton(type):
    _instances = {}

    def __call__(cls, *args, **kwargs):
        _key = inspect.getmro(cls)
        if _key not in cls._instances:
            cls._instances[_key] = \
                super(_Singleton, cls).__call__(*args, **kwargs)
        return cls._instances[_key]
```
The registry key is `inspect.getmro(cls)`, the method resolution order of
the concrete subtype; since a class is the head of its own MRO, distinct
classes always have distinct keys. An MRO is modelled as a list of class
identifiers. `super(_Singleton, cls).__call__(*args)` runs the ordinary
construction path: it allocates a fresh object and runs the subtype
`__init__`, which in the repository test classes stores its argument as
`x`; construction is modelled accordingly as producing an object carrying
the argument.
-/

/-- A method resolution order: the identifiers of the classes in it, the
concrete class first. -/
abbrev MRO := List Nat

/-- A constructed singleton-class instance: its identity and the state its
`__init__` stored from the construction argument. -/
structure PyObj where
  objId : Nat
  xVal : Int
  deriving DecidableEq

/-- The process-wide registry `_Singleton._instances` (shared by every
class whose metaclass is `_Singleton`), together with the allocator for
object identities. -/
structure SingletonState where
  instances : List (MRO × PyObj)
  nextId : Nat
  deriving DecidableEq

/-- `_Singleton.__call__`: return the cached instance for the MRO of
`cls`, constructing and caching one first if the key is absent. -/
def singleton_call (s : SingletonState) (cls : MRO) (arg : Int) :
    PyObj × SingletonState :=
  match alookup s.instances cls with
  | some o => (o, s)
  | none =>
    (⟨s.nextId, arg⟩,
     ⟨aupdate s.instances cls ⟨s.nextId, arg⟩, s.nextId + 1⟩)

/-- Modelled from the spec: the `new` operation of the process-wide
singleton is exercised by `SingletonTests.test_new` but is absent from
`src/misc/classtypes.py`; per the spec it must "unconditionally discard
any cached instance for this key and construct+cache a fresh one with the
given arguments, returning it." -/
def singleton_new (s : SingletonState) (cls : MRO) (arg : Int) :
    PyObj × SingletonState :=
  (⟨s.nextId, arg⟩,
   ⟨aupdate s.instances cls ⟨s.nextId, arg⟩, s.nextId + 1⟩)

/-- Modelled from the spec: the `delete` operation of the process-wide
singleton is exercised by `SingletonTests.test_delete` but is absent from
`src/misc/classtypes.py`; per the spec it must "discard the cached
instance for this key, if any; no-op if none exists." -/
def singleton_delete (s : SingletonState) (cls : MRO) : SingletonState :=
  ⟨aerase s.instances cls, s.nextId⟩

/-! `ThreadedSingleton` defines, in its class body:
```
def __call__(cls, *args, **kwargs):
    _key = inspect.getmro(cls)
    cur_thread = threading.current_thread()
    if _key not in cls._instances:
        cls._instances[_key] = {
            cur_thread: super(_Singleton, cls).__call__(*args, **kwargs)
        }
    elif _key in cls._instances and cur_thread not in cls._instances[_key]:
        cls._instances[_key][cur_thread] = \
            super(_Singleton, cls).__call__(*args, **kwargs)
    return cls._instances[_key][cur_thread]
```
`ThreadedSingleton` is an ordinary class (an instance of the metaclass
`_Singleton`), so this `__call__` is an instance method of its instances.
Instantiating a subclass `MyT(args)` looks `__call__` up on
`type(MyT) = _Singleton`, never on the MRO of `MyT` itself, so
construction runs `_Singleton.__call__` and the body above is not
consulted; the calling thread plays no role in construction. The body is
embedded separately below (`threadedSingleton_call_body`) over a nested
per-thread registry, and the dispatch actually performed by the language
is `threaded_construct`.
-/

/-- The nested registry shape the `ThreadedSingleton.__call__` body
manipulates: MRO key to (thread identifier to instance). -/
structure ThreadedState where
  instances : List (MRO × List (Nat × PyObj))
  nextId : Nat
  deriving DecidableEq

/-- The body of `ThreadedSingleton.__call__` as written (reachable only by
calling an already-constructed instance, not by instantiating a class). -/
def threadedSingleton_call_body (s : ThreadedState) (cls : MRO)
    (curThread : Nat) (arg : Int) : PyObj × ThreadedState :=
  match alookup s.instances cls with
  | none =>
    (⟨s.nextId, arg⟩,
     ⟨aupdate s.instances cls [(curThread, ⟨s.nextId, arg⟩)], s.nextId + 1⟩)
  | some m =>
    match alookup m curThread with
    | none =>
      (⟨s.nextId, arg⟩,
       ⟨aupdate s.instances cls (aupdate m curThread ⟨s.nextId, arg⟩),
        s.nextId + 1⟩)
    | some o => (o, s)

/-- What instantiating a `ThreadedSingleton` subclass actually runs: the
metaclass `_Singleton.__call__`, with the calling thread ignored. -/
def threaded_construct (s : SingletonState) (cls : MRO) (thread : Nat)
    (arg : Int) : PyObj × SingletonState :=
  singleton_call s cls arg

/-- Claim C1 (spec-modelled `new`): `S.new(a)` followed by `S.new(b)`
produces two distinct object identities, the registry afterwards holds the
second instance, that instance carries the second call arguments
(`x == b`), and exactly one cache entry remains for `S`. -/
theorem C1_singleton_new_replaces (s : SingletonState) (cls : MRO) (a b : Int) :
    ((singleton_new s cls a).1).objId ≠
      ((singleton_new (singleton_new s cls a).2 cls b).1).objId ∧
    alookup ((singleton_new (singleton_new s cls a).2 cls b).2).instances cls =
      some ((singleton_new (singleton_new s cls a).2 cls b).1) ∧
    ((singleton_new (singleton_new s cls a).2 cls b).1).xVal = b ∧
    acount ((singleton_new (singleton_new s cls a).2 cls b).2).instances cls = 1 := by
  refine ⟨?_, ?_, rfl, ?_⟩
  · simp [singleton_new]
  · exact alookup_aupdate_self _ _ _
  · exact acount_aupdate_self _ _ _

/-- Claim C2 (spec-modelled `delete`): after `S.delete()` no cache entry
remains for `S`, and when no instance was cached the operation leaves the
registry exactly as it was. -/
theorem C2_singleton_delete (s : SingletonState) (cls : MRO) :
    alookup (singleton_delete s cls).instances cls = none ∧
    acount (singleton_delete s cls).instances cls = 0 ∧
    (alookup s.instances cls = none → singleton_delete s cls = s) := by
  refine ⟨alookup_aerase_self _ _, acount_aerase_self _ _, ?_⟩
  intro h
  simp [singleton_delete, aerase_of_alookup_none _ _ h]

/-- Claim C2 witness: deleting a cached instance empties the slot, and
deleting from a registry with no entry for the class is a no-op. -/
theorem C2_singleton_delete_witness :
    alookup (singleton_delete ⟨[([1], ⟨0, 5⟩)], 1⟩ [1]).instances [1] = none ∧
    acount (singleton_delete ⟨[([1], ⟨0, 5⟩)], 1⟩ [1]).instances [1] = 0 ∧
    singleton_delete (⟨[], 0⟩ : SingletonState) [1] = ⟨[], 0⟩ :=
  ⟨(C2_singleton_delete ⟨[([1], ⟨0, 5⟩)], 1⟩ [1]).1,
   (C2_singleton_delete ⟨[([1], ⟨0, 5⟩)], 1⟩ [1]).2.1,
   (C2_singleton_delete ⟨[], 0⟩ [1]).2.2 (by decide)⟩

/-- Claim C3 (refuted, code bug): instantiating a subclass of
`ThreadedSingleton` dispatches to `type(cls).__call__ = _Singleton.__call__`,
so from an empty registry a construction by thread 0 with argument 5
followed by a construction by thread 1 with argument 12 returns the very
same object, still carrying 5 — not an independent per-thread instance.
The as-written (unreachable) body of `ThreadedSingleton.__call__` would
instead have produced a distinct instance for the second thread. -/
theorem C3_threaded_construction_ignores_thread :
    (threaded_construct (threaded_construct ⟨[], 0⟩ [1] 0 5).2 [1] 1 12).1 =
      (threaded_construct ⟨[], 0⟩ [1] 0 5).1 ∧
    (threaded_construct (threaded_construct ⟨[], 0⟩ [1] 0 5).2 [1] 1 12).1.xVal = 5 ∧
    (threadedSingleton_call_body
        (threadedSingleton_call_body ⟨[], 0⟩ [1] 0 5).2 [1] 1 12).1.objId ≠
      (threadedSingleton_call_body ⟨[], 0⟩ [1] 0 5).1.objId := by
  refine ⟨rfl, rfl, by decide⟩

/-- Claim C4: for a process-wide singleton subtype `S` not yet cached, the
first construction caches the new instance; a second construction returns
the identical object, ignores its arguments and leaves the registry
untouched; the surviving state is the first call arguments; and a distinct
subtype `T` gets an independent instance in its own cache slot, leaving
one entry for each of `S` and `T`. -/
theorem C4_singleton_first_call_wins (s : SingletonState) (S T : MRO)
    (a b c : Int) (hS : alookup s.instances S = none)
    (hT : alookup s.instances T = none) (hST : S ≠ T) :
    (singleton_call (singleton_call s S a).2 S b).1 = (singleton_call s S a).1 ∧
    (singleton_call (singleton_call s S a).2 S b).2 = (singleton_call s S a).2 ∧
    (singleton_call s S a).1.xVal = a ∧
    alookup (singleton_call s S a).2.instances S = some (singleton_call s S a).1 ∧
    (singleton_call (singleton_call s S a).2 T c).1.objId ≠
      (singleton_call s S a).1.objId ∧
    acount (singleton_call (singleton_call s S a).2 T c).2.instances S = 1 ∧
    acount (singleton_call (singleton_call s S a).2 T c).2.instances T = 1 := by
  have h1 : singleton_call s S a =
      (⟨s.nextId, a⟩, ⟨aupdate s.instances S ⟨s.nextId, a⟩, s.nextId + 1⟩) := by
    simp [singleton_call, hS]
  have hTS : T ≠ S := fun h => hST h.symm
  have h2 : alookup (aupdate s.instances S (⟨s.nextId, a⟩ : PyObj)) T = none := by
    rw [alookup_aupdate_ne _ _ _ _ hTS]
    exact hT
  have h3 : singleton_call
      (⟨aupdate s.instances S ⟨s.nextId, a⟩, s.nextId + 1⟩ : SingletonState) T c =
      (⟨s.nextId + 1, c⟩,
       ⟨aupdate (aupdate s.instances S ⟨s.nextId, a⟩) T ⟨s.nextId + 1, c⟩,
        s.nextId + 1 + 1⟩) := by
    simp [singleton_call, h2]
  refine ⟨?_, ?_, ?_, ?_, ?_, ?_, ?_⟩
  · rw [h1]
    simp [singleton_call, alookup_aupdate_self]
  · rw [h1]
    simp [singleton_call, alookup_aupdate_self]
  · rw [h1]
  · rw [h1]
    exact alookup_aupdate_self _ _ _
  · rw [h1, h3]
    simp
  · rw [h1, h3]
    simp only
    rw [acount_aupdate_ne _ _ _ _ hST]
    exact acount_aupdate_self _ _ _
  · rw [h1, h3]
    simp only
    exact acount_aupdate_self _ _ _

/-- Claim C4 witness: the scenario of the repository tests,
`MyTestSingleton(5)` then `MyTestSingleton(12)` and a second subtype
`Foo`, run from an empty registry. -/
theorem C4_singleton_first_call_wins_witness :
    (singleton_call (singleton_call ⟨[], 0⟩ [1] 5).2 [1] 12).1 =
      (singleton_call ⟨[], 0⟩ [1] 5).1 ∧
    (singleton_call ⟨[], 0⟩ [1] 5).1.xVal = 5 ∧
    (singleton_call (singleton_call ⟨[], 0⟩ [1] 5).2 [2] 7).1.objId ≠
      (singleton_call ⟨[], 0⟩ [1] 5).1.objId ∧
    acount (singleton_call (singleton_call ⟨[], 0⟩ [1] 5).2 [2] 7).2.instances [1] = 1 ∧
    acount (singleton_call (singleton_call ⟨[], 0⟩ [1] 5).2 [2] 7).2.instances [2] = 1 := by
  have h := C4_singleton_first_call_wins ⟨[], 0⟩ [1] [2] 5 12 7
    (by decide) (by decide) (by decide)
  exact ⟨h.1, h.2.2.1, h.2.2.2.2.1, h.2.2.2.2.2.1, h.2.2.2.2.2.2⟩

/-! ## `classproperty` (misc/decorators.py)

Source:
```
class classproperty(object):
    def __init__(self, fget=None, fset=None, doc=None):
        def is_class_method(f):
            return isinstance(f, (classmethod, staticmethod))

        self.fget = fget if is_class_method(fget) else classmethod(fget)
        self.fset = fset if is_class_method(fset) else classmethod(fset)
        ...

    def __get__(self, obj, klass=None):
        if klass is None:
            klass = type(obj)
        if self.fget is None:
            raise AttributeError("unreadable attribute")
        return self.fget.__get__(obj, klass)()

    def __set__(self, obj, value):
        if not self.fset:
            raise AttributeError("cant set attribute")
        type_ = type(obj)
        return self.fset.__get__(obj, type_)(value)
```
(The original message of the second raise carries an apostrophe; the
embedding spells it without one, which does not affect any claim.)

`classmethod(None)` is a perfectly constructible object: it only fails
when the bound method it yields is finally called, with
`TypeError: NoneType object is not callable`. A `classmethod` wrapper is
modelled as `PyClassmethod`, whose `callable` field is `none` exactly when
it wraps Python `None`; the descriptor fields `fget`/`fset` are `Option`
of that, with the outer `none` meaning the field holds Python `None`
itself (which `__init__` never produces).

The getter/setter callables used with this descriptor in the repository
read and write one class-level backing attribute
(`def getx(cls): return cls._x`, `def setx(cls, value): cls._x = value`);
they are embedded in that defunctionalized form.

Attribute access semantics used below (standard Python):
* reading `C.name` finds a descriptor in `C.__dict__` and invokes
  `__get__(None, C)`; a plain value is returned as is;
* reading `inst.name` gives priority to a data descriptor found on the
  class, then to the instance dictionary, then to a plain class attribute;
* writing `inst.name` invokes `__set__` when the class attribute is a data
  descriptor, else writes the instance dictionary;
* writing `C.name` consults only the metaclass (`type`, which defines no
  such descriptor) for data descriptors, so it plainly rebinds
  `C.__dict__[name]`, replacing whatever was there — including a
  `classproperty` descriptor.
-/

/-- Defunctionalized getter bodies: `return cls.<attr>`. -/
inductive GetterCode
  | readBacking (attr : String)
  deriving DecidableEq

/-- Defunctionalized setter bodies: `cls.<attr> = value`. -/
inductive SetterCode
  | writeBacking (attr : String)
  deriving DecidableEq

/-- A `classmethod` object; `callable := none` models `classmethod(None)`. -/
structure PyClassmethod (γ : Type) where
  callable : Option γ
  deriving DecidableEq

/-- The `classproperty` descriptor after `__init__`: each field is either
Python `None` (outer `none`, never produced by `__init__`) or a
`classmethod` wrapper. -/
structure classproperty where
  fget : Option (PyClassmethod GetterCode)
  fset : Option (PyClassmethod SetterCode)
  deriving DecidableEq

/-- `classproperty.__init__(fget, fset)`: a raw function (or `None`) is
wrapped in `classmethod`; an already-wrapped argument is kept, which in
this model is the same value. The fields therefore never hold Python
`None`. -/
def classproperty_init (g : Option GetterCode) (s : Option SetterCode) :
    classproperty :=
  { fget := some ⟨g⟩, fset := some ⟨s⟩ }

/-- A class attribute: a plain value or a `classproperty` descriptor. -/
inductive Attr
  | val (v : Int)
  | prop (p : classproperty)
  deriving DecidableEq

/-- A class dictionary (`C.__dict__`): attribute name to class attribute. -/
abbrev CDict := List (String × Attr)

/-- An instance dictionary for such a class: name to plain value. -/
abbrev IDict := List (String × Int)

/-- A plain (non-descriptor) read of `cls.<attr>`, as performed by the
repository getter bodies whose backing attribute is a plain value. -/
def readPlainAttr (c : CDict) (attr : String) : Except PyError Int :=
  match alookup c attr with
  | some (.val v) => .ok v
  | _ => .error (.attributeError attr)

/-- Run a getter body with the owning class. -/
def evalGetter (g : GetterCode) (c : CDict) : Except PyError Int :=
  match g with
  | .readBacking attr => readPlainAttr c attr

/-- `type.__setattr__(C, name, v)`: the metaclass `type` defines no data
descriptor for `name`, so the class dictionary entry is plainly rebound,
replacing a descriptor if one was there. -/
def classSetAttr (c : CDict) (name : String) (v : Int) : CDict :=
  aupdate c name (.val v)

/-- Run a setter body with the owning class and the new value
(`cls.<attr> = value` is itself a class-attribute write). -/
def evalSetter (s : SetterCode) (c : CDict) (v : Int) : CDict :=
  match s with
  | .writeBacking attr => classSetAttr c attr v

/-- `classproperty.__get__` invoked with the owning class `klass` (both
the class and the instance access paths pass it, so the
`if klass is None` normalization is already done). -/
def classproperty_get (p : classproperty) (klass : CDict) : Except PyError Int :=
  match p.fget with
  | none => .error (.attributeError "unreadable attribute")
  | some cm =>
    match cm.callable with
    | none => .error (.typeError "NoneType object is not callable")
    | some g => evalGetter g klass

/-- `classproperty.__set__`: `if not self.fset` is a truthiness test and a
`classmethod` object is always truthy, so only a field holding Python
`None` takes the `AttributeError` branch; calling the method bound from
`classmethod(None)` raises `TypeError`. -/
def classproperty_set (p : classproperty) (klass : CDict) (v : Int) :
    Except PyError CDict :=
  match p.fset with
  | none => .error (.attributeError "cant set attribute")
  | some cm =>
    match cm.callable with
    | none => .error (.typeError "NoneType object is not callable")
    | some s => .ok (evalSetter s klass v)

/-- Reading `C.name`: a descriptor found in the class dictionary is
invoked with `(None, C)`; a plain value is returned directly. -/
def classGetAttr (c : CDict) (name : String) : Except PyError Int :=
  match alookup c name with
  | some (.val v) => .ok v
  | some (.prop p) => classproperty_get p c
  | none => .error (.attributeError name)

/-- Reading `inst.name` for an instance of the class `c`: a data
descriptor on the class wins; otherwise the instance dictionary, then a
plain class attribute. -/
def instGetAttr (c : CDict) (inst : IDict) (name : String) : Except PyError Int :=
  match alookup c name with
  | some (.prop p) => classproperty_get p c
  | some (.val v) =>
    match alookup inst name with
    | some w => .ok w
    | none => .ok v
  | none =>
    match alookup inst name with
    | some w => .ok w
    | none => .error (.attributeError name)

/-- Writing `inst.name = v`: a data descriptor on the class intercepts the
write (`__set__` receives `type(inst)`, i.e. the class); otherwise the
instance dictionary is written. -/
def instSetAttr (c : CDict) (inst : IDict) (name : String) (v : Int) :
    Except PyError (CDict × IDict) :=
  match alookup c name with
  | some (.prop p) =>
    match classproperty_set p c v with
    | .ok c2 => .ok (c2, inst)
    | .error e => .error e
  | _ => .ok (c, aupdate inst name v)

/-- The `Example` class of the repository decorator tests: a backing
`_x` (initially `x0`) and a class property `x` whose getter reads `_x`
and whose setter writes `_x`. -/
def exampleClass (x0 : Int) : CDict :=
  [("_x", Attr.val x0),
   ("x", Attr.prop (classproperty_init
     (some (GetterCode.readBacking "_x"))
     (some (SetterCode.writeBacking "_x"))))]

/-- Claim C5 (refuted, code bug): with getter and setter both configured
over backing `_x = 0`, reading `x` through the class and through an
instance does invoke the getter and return the backing value; but writing
`x = 5` through the class never invokes the setter: the backing `_x` is
left at `0` while the class dictionary entry for `x` is rebound to the
plain value `5` (destroying the descriptor), so the assertion of the
repository test `test_setter` — that the backing equals the property after
the write — fails. Writing through an instance, by contrast, does route
through the setter and updates the backing value. -/
theorem C5_classproperty_class_write_bypasses_setter :
    classGetAttr (exampleClass 0) "x" = .ok 0 ∧
    instGetAttr (exampleClass 0) [] "x" = .ok 0 ∧
    classGetAttr (classSetAttr (exampleClass 0) "x" 5) "_x" = .ok 0 ∧
    alookup (classSetAttr (exampleClass 0) "x" 5) "x" = some (.val 5) ∧
    classGetAttr (classSetAttr (exampleClass 0) "x" 5) "x" = .ok 5 ∧
    classGetAttr (classSetAttr (exampleClass 0) "x" 5) "_x" ≠
      classGetAttr (classSetAttr (exampleClass 0) "x" 5) "x" ∧
    instSetAttr (exampleClass 0) [] "x" 5 =
      .ok (aupdate (exampleClass 0) "_x" (.val 5), []) := by
  refine ⟨rfl, rfl, rfl, rfl, rfl, ?_, rfl⟩
  intro h
  have h2 : (Except.ok 0 : Except PyError Int) = Except.ok 5 := h
  injection h2 with h3
  exact absurd h3 (by decide)

/-- Claim C6 (refuted, code bug): because `__init__` wraps `None` in
`classmethod`, a descriptor with no getter or no setter raises
`TypeError` (`NoneType` object is not callable) at the point of access,
not the intended `AttributeError`; the `fget is None` / `not self.fset`
guards can never fire on a descriptor built by `__init__`. -/
theorem C6_classproperty_missing_accessor_raises_typeerror :
    classGetAttr [("x", Attr.prop (classproperty_init none none))] "x" =
      .error (.typeError "NoneType object is not callable") ∧
    instSetAttr [("x", Attr.prop (classproperty_init none none))] [] "x" 5 =
      .error (.typeError "NoneType object is not callable") ∧
    (∀ (g : Option GetterCode) (s : Option SetterCode),
      (classproperty_init g s).fget.isSome = true ∧
      (classproperty_init g s).fset.isSome = true) := by
  refine ⟨rfl, rfl, fun g s => ⟨rfl, rfl⟩⟩
